import Mathlib

/-!
Shallow embedding of `neuralop/layers/transformer_block.py`:
the Transformer encoder / decoder blocks for attention-based neural
operators, together with the normalization selector and the decoder's
query-basis generator.

Tensors are rank-3 (batch, points, channels) with rational entries and a
total data function; shape-classes are carried explicitly as fields.
External collaborators of the blocks (the attention-kernel-integral
operator, the MLP module, the Siren / Fourier coordinate embeddings, the
torch normalization modules) are not part of this repository's source and
are modelled from the spec's contracts; transcendental scalar functions
appearing inside them (GELU, sine/cosine, variance rescaling) are
abstracted as explicit function-valued parameters, which no block-level
property depends on.
-/

namespace NeuralOp

/-- A rank-3 tensor of shape (batch, pts, ch) with a total data function;
indices outside the shape are junk. -/
structure Tensor3 where
  batch : Nat
  pts : Nat
  ch : Nat
  data : Nat → Nat → Nat → ℚ

/-- The shape triple of a tensor. -/
def Tensor3.dims (t : Tensor3) : Nat × Nat × Nat :=
  (t.batch, t.pts, t.ch)

/-- Pointwise application of a scalar function (e.g. a nonlinearity). -/
def Tensor3.map (f : ℚ → ℚ) (t : Tensor3) : Tensor3 :=
  ⟨t.batch, t.pts, t.ch, fun b p c => f (t.data b p c)⟩

/-- Elementwise addition (used for residual connections; both operands
have identical shape at every use site). -/
def Tensor3.add (u v : Tensor3) : Tensor3 :=
  ⟨u.batch, u.pts, u.ch, fun b p c => u.data b p c + v.data b p c⟩

/-- Torch `permute(0, 2, 1)`: swap the point and channel axes
(channel-last ↔ channel-first). -/
def Tensor3.permute021 (t : Tensor3) : Tensor3 :=
  ⟨t.batch, t.ch, t.pts, fun b c p => t.data b p c⟩

/-- Torch `view(b, -1, last)`: reshape to (b, inferred, last), the middle
dimension inferred from the element count. -/
def Tensor3.view3 (t : Tensor3) (b last : Nat) : Tensor3 :=
  ⟨b, t.batch * t.pts * t.ch / (b * last), last,
   fun i j k =>
     let mid := t.batch * t.pts * t.ch / (b * last)
     let idx := i * (mid * last) + j * last + k
     t.data (idx / (t.pts * t.ch)) (idx % (t.pts * t.ch) / t.ch) (idx % t.ch)⟩

/-- Torch `expand(B, -1, -1)` on the batch axis: broadcast a size-1 batch
dimension to size B (the only in-contract use in the blocks). -/
def Tensor3.expand0 (t : Tensor3) (B : Nat) : Tensor3 :=
  ⟨B, t.pts, t.ch, fun b p c => if t.batch = 1 then t.data 0 p c else t.data b p c⟩

/-- Raw weights of one linear layer. -/
structure LinW where
  w : Nat → Nat → ℚ
  b : Nat → ℚ

/-- An `nn.Linear(inF, outF)` layer acting on the channel axis of a
channel-last tensor. -/
structure LinearParams where
  inF : Nat
  outF : Nat
  w : Nat → Nat → ℚ
  b : Nat → ℚ

/-- Build a linear layer of the given widths from raw weights. -/
def mkLinear (inF outF : Nat) (lw : LinW) : LinearParams :=
  ⟨inF, outF, lw.w, lw.b⟩

/-- Apply a linear layer: an affine map over the channel axis. -/
def LinearParams.apply (L : LinearParams) (t : Tensor3) : Tensor3 :=
  ⟨t.batch, t.pts, L.outF,
   fun b p o => (∑ i ∈ Finset.range L.inF, L.w o i * t.data b p i) + L.b o⟩

/-- The normalization transform returned by `get_normalization`: one of
`nn.Identity`, `nn.InstanceNorm1d`, `nn.GroupNorm`, `nn.LayerNorm`. -/
inductive NormFn where
  | identity : NormFn
  | instanceNorm (channels : Nat) : NormFn
  | groupNorm (numGroups channels : Nat) : NormFn
  | layerNorm (channels : Nat) : NormFn

/-- Whether the transform requires channel-first layout
(`isinstance(norm_fn, nn.GroupNorm) or isinstance(norm_fn, nn.InstanceNorm1d)`). -/
def NormFn.isChannelFirst : NormFn → Bool
  | .instanceNorm _ => true
  | .groupNorm _ _ => true
  | _ => false

/-- Modelled from the spec: the torch normalization modules are external
to this repository; each is a per-element centering over the axes the
spec names for that kind (instance: over points per sample and channel,
channel-first; group: over each channel group and all points,
channel-first; layer: over the channel axis, channel-last). The
variance-rescaling factor of the external modules is an orthogonal
scalar detail abstracted away; every block-level property proved below
is insensitive to it. Inputs arrive in the layout the kind requires. -/
def NormFn.apply : NormFn → Tensor3 → Tensor3
  | .identity, t => t
  | .instanceNorm _, t =>
      ⟨t.batch, t.pts, t.ch, fun b c n =>
        t.data b c n - (∑ m ∈ Finset.range t.ch, t.data b c m) / (t.ch : ℚ)⟩
  | .groupNorm g _, t =>
      let gs := t.pts / g
      ⟨t.batch, t.pts, t.ch, fun b c n =>
        t.data b c n -
          (∑ c' ∈ Finset.range t.pts, ∑ m ∈ Finset.range t.ch,
              if c' / gs = c / gs then t.data b c' m else 0) / ((gs * t.ch : Nat) : ℚ)⟩
  | .layerNorm _, t =>
      ⟨t.batch, t.pts, t.ch, fun b p c =>
        t.data b p c - (∑ m ∈ Finset.range t.ch, t.data b p m) / (t.ch : ℚ)⟩

/-- Source `get_normalization(norm, channels)`: dispatch on the normalization
kind string; unknown kinds raise a `ValueError`. -/
def get_normalization (norm : String) (channels : Nat) : Except String NormFn :=
  if norm = "none" then Except.ok NormFn.identity
  else if norm = "instance_norm" then Except.ok (NormFn.instanceNorm channels)
  else if norm = "group_norm" then
    Except.ok (NormFn.groupNorm (if channels > 128 then 32 else 1) channels)
  else if norm = "layer_norm" then Except.ok (NormFn.layerNorm channels)
  else Except.error ("Got norm=" ++ norm ++
    " but expected None or one of [instance_norm, group_norm, layer_norm]")

/-- Source `normalize(u, norm_fn)`: apply the transform, transposing to
channel-first and back exactly when the transform requires it, so the
caller always passes and receives channel-last tensors. -/
def normalize (u : Tensor3) (norm_fn : NormFn) : Tensor3 :=
  if norm_fn.isChannelFirst then
    (norm_fn.apply u.permute021).permute021
  else
    norm_fn.apply u

/-- Sequential application of a chain of linear layers with the given
nonlinearity between consecutive layers (after every layer but the last). -/
def applyChain (σ : ℚ → ℚ) : List LinearParams → Tensor3 → Tensor3
  | [], t => t
  | [L], t => L.apply t
  | L :: L' :: rest, t => applyChain σ (L' :: rest) (Tensor3.map σ (L.apply t))

/-- Modelled from the spec: `MLPLinear`, the external feed-forward module
— a chain of linear layers described by a width list, a nonlinearity
between layers, and a dropout rate (dropout is the identity in the
deterministic forward semantics modelled here). -/
structure MLPLinearParams where
  layers : List LinearParams
  non_linearity : ℚ → ℚ
  dropout : ℚ

/-- Apply the feed-forward chain to a channel-last tensor. -/
def MLPLinearParams.apply (m : MLPLinearParams) (t : Tensor3) : Tensor3 :=
  applyChain m.non_linearity m.layers t

/-- Modelled from the spec: the optional positional-embedding module is
passed through opaquely into the attention operator; it transforms the
data of a feature tensor given the matching positions, preserving the
feature tensor's shape. -/
structure PosEmbModule where
  f : (Nat → Nat → Nat → ℚ) → Tensor3 → Nat → Nat → Nat → ℚ

/-- Apply a positional-embedding module to features at positions. -/
def PosEmbModule.applyTo (m : PosEmbModule) (t pos : Tensor3) : Tensor3 :=
  ⟨t.batch, t.pts, t.ch, m.f t.data pos⟩

/-- Modelled from the spec: `AttentionKernelIntegral`, the external
attention operator generalized to continuous point sets. Constructed
with (in_channels, out_channels, n_heads, head_n_channels,
project_query); holds key/value projections, a query projection used
exactly when `project_query` is true, and an output projection from the
joint head width to `out_channels`. -/
structure AttentionParams where
  in_channels : Nat
  out_channels : Nat
  n_heads : Nat
  head_n_channels : Nat
  project_query : Bool
  wq : LinearParams
  wk : LinearParams
  wv : LinearParams
  wout : LinearParams

/-- Raw weights for an attention operator. -/
structure AttnW where
  wq : LinW
  wk : LinW
  wv : LinW
  wout : LinW

/-- Build the attention operator from its constructor contract: key /
value / output projections over the joint head width
`n_heads * head_n_channels`; the query projection from `in_channels`
is exercised only when `project_query` is true. -/
def mkAttention (in_channels out_channels n_heads head_n_channels : Nat)
    (project_query : Bool) (w : AttnW) : AttentionParams :=
  ⟨in_channels, out_channels, n_heads, head_n_channels, project_query,
   mkLinear in_channels (n_heads * head_n_channels) w.wq,
   mkLinear in_channels (n_heads * head_n_channels) w.wk,
   mkLinear in_channels (n_heads * head_n_channels) w.wv,
   mkLinear (n_heads * head_n_channels) out_channels w.wout⟩

/-- Modelled from the spec: the attention operator's forward contract.
Queries come from `u_qry` when supplied (used directly when
`project_query` is false, projected otherwise), else from `u_src`; the
positional-embedding module, when supplied, is applied to queries and
keys at their respective positions; the kernel integral aggregates
projected values over the source point set; the result is aligned to
the query point set and projected to `out_channels`. -/
def AttentionParams.forward (A : AttentionParams) (u_src pos_src : Tensor3)
    (u_qry pos_qry : Option Tensor3) (pem : Option PosEmbModule) : Tensor3 :=
  let qin := u_qry.getD u_src
  let pq := pos_qry.getD pos_src
  let q0 := if A.project_query then A.wq.apply qin else qin
  let k0 := A.wk.apply u_src
  let q := match pem with
    | none => q0
    | some m => m.applyTo q0 pq
  let k := match pem with
    | none => k0
    | some m => m.applyTo k0 pos_src
  let v := A.wv.apply u_src
  let kernelOut : Tensor3 :=
    ⟨u_src.batch, q.pts, A.n_heads * A.head_n_channels,
     fun b i c =>
       ∑ j ∈ Finset.range u_src.pts,
         (∑ d ∈ Finset.range (A.n_heads * A.head_n_channels),
            q.data b i d * k.data b j d) * v.data b j c⟩
  A.wout.apply kernelOut

/-- Modelled from the spec: `SirenNet`, the external implicit-periodic
coordinate network — `num_layers` layers with a periodic activation
(the first from `dim_in` to `dim_hidden`, the rest `dim_hidden` to
`dim_hidden`), followed by a final linear layer to `dim_out`. The
periodic activation is an external real function, abstracted as the
parameter `act`. -/
structure SirenParams where
  dim_in : Nat
  dim_hidden : Nat
  dim_out : Nat
  num_layers : Nat
  layerW : Nat → LinW
  finalW : LinW
  act : ℚ → ℚ

/-- One hidden layer of the Siren network. -/
def SirenParams.layer (p : SirenParams) (i : Nat) : LinearParams :=
  mkLinear (if i = 0 then p.dim_in else p.dim_hidden) p.dim_hidden (p.layerW i)

/-- Apply the Siren network to each coordinate vector of a point set. -/
def SirenParams.apply (p : SirenParams) (t : Tensor3) : Tensor3 :=
  let hidden := (List.range p.num_layers).foldl
    (fun acc i => Tensor3.map p.act ((p.layer i).apply acc)) t
  (mkLinear p.dim_hidden p.dim_out p.finalW).apply hidden

/-- Modelled from the spec: `GaussianFourierFeatureTransform`, the
external sinusoidal feature map — coordinates are projected through a
scale-multiplied random matrix of `mapping_size` rows, and sine and
cosine components are concatenated, doubling the width. The sinusoids
are external real functions, abstracted as the parameters `s` and `c`. -/
structure FourierParams where
  n_dim : Nat
  mapping_size : Nat
  scale : ℚ
  Bmat : Nat → Nat → ℚ
  s : ℚ → ℚ
  c : ℚ → ℚ

/-- Apply the Fourier feature map to each coordinate vector. -/
def FourierParams.apply (p : FourierParams) (t : Tensor3) : Tensor3 :=
  ⟨t.batch, t.pts, 2 * p.mapping_size,
   fun b i j =>
     if j < p.mapping_size then
       p.s (∑ d ∈ Finset.range p.n_dim, p.scale * p.Bmat j d * t.data b i d)
     else
       p.c (∑ d ∈ Finset.range p.n_dim,
         p.scale * p.Bmat (j - p.mapping_size) d * t.data b i d)⟩

/-- The decoder's query-basis generator: one of the three interchangeable
strategies selected at construction. -/
inductive QueryBasisFn where
  | siren (net : SirenParams) : QueryBasisFn
  | fourier (ft : FourierParams) (proj : LinearParams) : QueryBasisFn
  | linear (lin : LinearParams) : QueryBasisFn

/-- Apply the selected basis strategy to a query point set. -/
def QueryBasisFn.apply : QueryBasisFn → Tensor3 → Tensor3
  | .siren p, t => p.apply t
  | .fourier ft proj, t => proj.apply (ft.apply t)
  | .linear L, t => L.apply t

/-- A lifting / output projection: `nn.Linear(...)` when the widths
differ, `nn.Identity()` when they already agree. -/
inductive ProjLayer where
  | identity : ProjLayer
  | linear (L : LinearParams) : ProjLayer

/-- Apply a lifting / output projection. -/
def ProjLayer.apply : ProjLayer → Tensor3 → Tensor3
  | .identity, t => t
  | .linear L, t => L.apply t

/-- Python `int(...)` on a rational (truncation; the blocks only apply it
to nonnegative width products, where it is the floor). -/
def pyInt (q : ℚ) : Nat :=
  (Rat.floor q).toNat

/-- Raw weights for every parametrized layer an encoder block can own. -/
structure EncoderWeights where
  lifting : LinW
  to_out : LinW
  attn : AttnW
  mlp1 : LinW
  mlp2 : LinW
  mlp_act : ℚ → ℚ

/-- The `TransformerEncoderBlock`: configuration plus owned layers. The
`mlp` field holds the feed-forward pre-norm and layer exactly when
`use_mlp` was set (in the source the two attributes only exist then). -/
structure TransformerEncoderBlock where
  in_channels : Nat
  out_channels : Nat
  hidden_channels : Nat
  num_heads : Nat
  head_n_channels : Nat
  use_mlp : Bool
  mlp_dropout : ℚ
  mlp_expansion : ℚ
  non_linearity : ℚ → ℚ
  norm : String
  lifting : ProjLayer
  to_out : ProjLayer
  attention_norm : NormFn
  attention_layer : AttentionParams
  mlp : Option (NormFn × MLPLinearParams)

/-- Embedding of `TransformerEncoderBlock.__init__`: store the configuration, build
lifting / to_out (identity when widths agree), the attention pre-norm,
the self-attention operator with `project_query = True`, and — only when
`use_mlp` — the feed-forward pre-norm and the expansion MLP. Unknown
normalization kinds raise. -/
def encoderInit (in_channels out_channels hidden_channels num_heads head_n_channels : Nat)
    (use_mlp : Bool) (mlp_dropout mlp_expansion : ℚ) (non_linearity : ℚ → ℚ)
    (norm : String) (w : EncoderWeights) : Except String TransformerEncoderBlock :=
  match get_normalization norm hidden_channels with
  | .error e => .error e
  | .ok attention_norm =>
    let lifting := if in_channels ≠ hidden_channels then
        ProjLayer.linear (mkLinear in_channels hidden_channels w.lifting)
      else ProjLayer.identity
    let to_out := if hidden_channels ≠ out_channels then
        ProjLayer.linear (mkLinear hidden_channels out_channels w.to_out)
      else ProjLayer.identity
    let attention_layer :=
      mkAttention hidden_channels hidden_channels num_heads head_n_channels true w.attn
    if use_mlp then
      match get_normalization norm hidden_channels with
      | .error e => .error e
      | .ok mlp_norm =>
        let mid := pyInt ((hidden_channels : ℚ) * mlp_expansion)
        let mlp_layer : MLPLinearParams :=
          ⟨[mkLinear hidden_channels mid w.mlp1, mkLinear mid hidden_channels w.mlp2],
           w.mlp_act, mlp_dropout⟩
        .ok ⟨in_channels, out_channels, hidden_channels, num_heads, head_n_channels,
             use_mlp, mlp_dropout, mlp_expansion, non_linearity, norm,
             lifting, to_out, attention_norm, attention_layer, some (mlp_norm, mlp_layer)⟩
    else
      .ok ⟨in_channels, out_channels, hidden_channels, num_heads, head_n_channels,
           use_mlp, mlp_dropout, mlp_expansion, non_linearity, norm,
           lifting, to_out, attention_norm, attention_layer, none⟩

/-- Embedding of `TransformerEncoderBlock.forward`: lift, pre-norm + self-attention +
residual, optionally pre-norm + feed-forward + residual, project out. -/
def TransformerEncoderBlock.forward (self : TransformerEncoderBlock)
    (u pos : Tensor3) (pos_emb_module : Option PosEmbModule) : Tensor3 :=
  let u1 := self.lifting.apply u
  let u_attention_skip := u1
  let u2 := Tensor3.add
    (self.attention_layer.forward (normalize u1 self.attention_norm) pos
      none none pos_emb_module)
    u_attention_skip
  let u3 :=
    if self.use_mlp then
      match self.mlp with
      | some mn => Tensor3.add (mn.2.apply (normalize u2 mn.1)) u2
      | none => u2
    else u2
  self.to_out.apply u3

/-- Raw weights for every parametrized layer a decoder block can own. -/
structure DecoderWeights where
  lifting : LinW
  to_out1 : LinW
  to_out2 : LinW
  attn : AttnW
  siren_layerW : Nat → LinW
  siren_final : LinW
  siren_act : ℚ → ℚ
  fourier_B : Nat → Nat → ℚ
  fourier_s : ℚ → ℚ
  fourier_c : ℚ → ℚ
  fourier_proj : LinW
  linear_basis : LinW

/-- Build the decoder's query-basis generator for the selected strategy;
unknown strategy names raise a `ValueError`. -/
def queryBasisInit (n_dim hidden_channels num_heads head_n_channels : Nat)
    (query_basis : String) (query_siren_layers : Nat) (query_fourier_scale : ℚ)
    (w : DecoderWeights) : Except String QueryBasisFn :=
  if query_basis = "siren" then
    .ok (QueryBasisFn.siren
      ⟨n_dim, hidden_channels, num_heads * head_n_channels, query_siren_layers,
       w.siren_layerW, w.siren_final, w.siren_act⟩)
  else if query_basis = "fourier" then
    .ok (QueryBasisFn.fourier
      ⟨n_dim, head_n_channels, query_fourier_scale, w.fourier_B, w.fourier_s, w.fourier_c⟩
      (mkLinear (head_n_channels * 2) (num_heads * head_n_channels) w.fourier_proj))
  else if query_basis = "linear" then
    .ok (QueryBasisFn.linear (mkLinear n_dim (num_heads * head_n_channels) w.linear_basis))
  else
    .error ("query_basis must be one of [siren, fourier, linear], got " ++ query_basis)

/-- The `TransformerDecoderBlock`: configuration plus owned layers. The
`use_mlp` / `mlp_dropout` / `mlp_expansion` settings are stored but no
feed-forward refinement layer is ever built from them. -/
structure TransformerDecoderBlock where
  n_dim : Nat
  in_channels : Nat
  out_channels : Nat
  hidden_channels : Nat
  num_heads : Nat
  head_n_channels : Nat
  use_mlp : Bool
  mlp_dropout : ℚ
  mlp_expansion : ℚ
  non_linearity : ℚ → ℚ
  norm : String
  query_basis : String
  query_siren_layers : Nat
  query_fourier_scale : ℚ
  lifting : ProjLayer
  out_norm : NormFn
  to_out : MLPLinearParams
  query_basis_fn : QueryBasisFn
  attention_norm : NormFn
  attention_layer : AttentionParams

/-- Embedding of `TransformerDecoderBlock.__init__`: store the configuration, build
lifting (identity when widths agree), the output norm, the two-layer
output MLP, the query-basis generator, the (unused in forward) attention
norm, and the cross-attention operator with `project_query = False`.
Unknown normalization kinds and unknown basis strategies raise, with the
output-norm check occurring first, then the basis check. -/
def decoderInit (n_dim in_channels out_channels hidden_channels num_heads head_n_channels : Nat)
    (query_basis : String) (use_mlp : Bool) (mlp_dropout mlp_expansion : ℚ)
    (non_linearity : ℚ → ℚ) (query_siren_layers : Nat) (query_fourier_scale : ℚ)
    (norm : String) (w : DecoderWeights) : Except String TransformerDecoderBlock :=
  match get_normalization norm hidden_channels,
        queryBasisInit n_dim hidden_channels num_heads head_n_channels
          query_basis query_siren_layers query_fourier_scale w,
        get_normalization norm hidden_channels with
  | .error e, _, _ => .error e
  | _, .error e, _ => .error e
  | _, _, .error e => .error e
  | .ok out_norm, .ok query_basis_fn, .ok attention_norm =>
    .ok ⟨n_dim, in_channels, out_channels, hidden_channels, num_heads, head_n_channels,
         use_mlp, mlp_dropout, mlp_expansion, non_linearity, norm,
         query_basis, query_siren_layers, query_fourier_scale,
         (if in_channels ≠ hidden_channels then
            ProjLayer.linear (mkLinear in_channels hidden_channels w.lifting)
          else ProjLayer.identity),
         out_norm,
         ⟨[mkLinear hidden_channels hidden_channels w.to_out1,
           mkLinear hidden_channels out_channels w.to_out2], non_linearity, 0⟩,
         query_basis_fn,
         attention_norm,
         mkAttention hidden_channels hidden_channels num_heads head_n_channels false w.attn⟩

/-- The decoder's query-embedding pipeline: basis generation over the
query points, reshape to the joint head width with the query set's batch
size, and broadcast of the batch dimension to the value tensor's when
they differ. -/
def decoderQueryEmb (self : TransformerDecoderBlock) (u_lifted pos_qry : Tensor3) : Tensor3 :=
  let query_emb := self.query_basis_fn.apply pos_qry
  let query_emb := query_emb.view3 pos_qry.batch (self.num_heads * self.head_n_channels)
  if query_emb.batch ≠ u_lifted.batch then query_emb.expand0 u_lifted.batch
  else query_emb

/-- Embedding of `TransformerDecoderBlock.forward`: lift, default the query points to
the source points when absent, generate / reshape / broadcast the query
embeddings, cross-attend, then post-norm and the two-layer output MLP. -/
def TransformerDecoderBlock.forward (self : TransformerDecoderBlock)
    (u pos_src : Tensor3) (pos_emb_module : Option PosEmbModule)
    (pos_qry : Option Tensor3) : Tensor3 :=
  let u1 := self.lifting.apply u
  let pq := pos_qry.getD pos_src
  let query_emb := decoderQueryEmb self u1 pq
  let u_out := self.attention_layer.forward u1 pos_src
    (some query_emb) (some pq) pos_emb_module
  self.to_out.apply (normalize u_out self.out_norm)

/-- State-passing form of the encoder forward: the source's `forward`
body contains no assignment to instance state, so the embedding returns
the block unchanged alongside the output. -/
def TransformerEncoderBlock.forwardS (self : TransformerEncoderBlock)
    (u pos : Tensor3) (pos_emb_module : Option PosEmbModule) :
    Tensor3 × TransformerEncoderBlock :=
  (self.forward u pos pos_emb_module, self)

/-- State-passing form of the decoder forward: the source's `forward`
body contains no assignment to instance state, so the embedding returns
the block unchanged alongside the output. -/
def TransformerDecoderBlock.forwardS (self : TransformerDecoderBlock)
    (u pos_src : Tensor3) (pos_emb_module : Option PosEmbModule)
    (pos_qry : Option Tensor3) : Tensor3 × TransformerDecoderBlock :=
  (self.forward u pos_src pos_emb_module pos_qry, self)

instance : Inhabited LinW := ⟨⟨fun _ _ => 0, fun _ => 0⟩⟩

instance : Inhabited LinearParams := ⟨⟨0, 0, fun _ _ => 0, fun _ => 0⟩⟩

instance : Inhabited NormFn := ⟨NormFn.identity⟩

instance : Inhabited ProjLayer := ⟨ProjLayer.identity⟩

instance : Inhabited MLPLinearParams := ⟨⟨[], id, 0⟩⟩

instance : Inhabited AttentionParams :=
  ⟨⟨0, 0, 0, 0, false, default, default, default, default⟩⟩

instance : Inhabited SirenParams := ⟨⟨0, 0, 0, 0, fun _ => default, default, id⟩⟩

instance : Inhabited QueryBasisFn := ⟨QueryBasisFn.linear default⟩

instance : Inhabited TransformerDecoderBlock :=
  ⟨⟨0, 0, 0, 0, 0, 0, false, 0, 0, id, "", "", 0, 0,
    default, default, default, default, default, default⟩⟩

/-- A linear layer preserves batch and point dimensions and sets the
channel dimension to its output width. -/
theorem LinearParams.apply_dims (L : LinearParams) (t : Tensor3) :
    (L.apply t).dims = (t.batch, t.pts, L.outF) := rfl

/-- The `normalize` operation preserves all three dimensions for every normalization
transform. -/
theorem normalize_dims (t : Tensor3) (nf : NormFn) :
    (normalize t nf).dims = t.dims := by
  cases nf <;>
    simp [normalize, NormFn.apply, NormFn.isChannelFirst, Tensor3.permute021, Tensor3.dims]

/-- A chain of linear layers preserves batch and point dimensions. -/
theorem applyChain_batch_pts (σ : ℚ → ℚ) (l : List LinearParams) (t : Tensor3) :
    (applyChain σ l t).batch = t.batch ∧ (applyChain σ l t).pts = t.pts := by
  induction l generalizing t with
  | nil => exact ⟨rfl, rfl⟩
  | cons L rest ih =>
    cases rest with
    | nil => exact ⟨rfl, rfl⟩
    | cons L2 r2 => exact ih (Tensor3.map σ (L.apply t))

/-- The attention operator's output is aligned to the query point set:
batch from the source values, point count from the (defaulted) query
values, channels from the output projection. -/
theorem attention_forward_dims (A : AttentionParams) (u_src pos_src : Tensor3)
    (u_qry pos_qry : Option Tensor3) (pem : Option PosEmbModule) :
    (A.forward u_src pos_src u_qry pos_qry pem).dims =
      (u_src.batch, (u_qry.getD u_src).pts, A.wout.outF) := by
  cases pem <;> cases u_qry <;> by_cases hp : A.project_query <;>
    simp [AttentionParams.forward, LinearParams.apply, PosEmbModule.applyTo,
      Tensor3.dims, hp]

/-- The Siren hidden-layer fold preserves batch and point dimensions. -/
theorem siren_fold_dims (p : SirenParams) (l : List Nat) (t : Tensor3) :
    ((l.foldl (fun acc i => Tensor3.map p.act ((p.layer i).apply acc)) t).batch = t.batch ∧
     (l.foldl (fun acc i => Tensor3.map p.act ((p.layer i).apply acc)) t).pts = t.pts) := by
  induction l generalizing t with
  | nil => exact ⟨rfl, rfl⟩
  | cons i rest ih => exact ih (Tensor3.map p.act ((p.layer i).apply t))

/-- The Siren network maps a point set to embeddings of width `dim_out`. -/
theorem siren_apply_dims (p : SirenParams) (t : Tensor3) :
    (p.apply t).dims = (t.batch, t.pts, p.dim_out) := by
  have h := siren_fold_dims p (List.range p.num_layers) t
  simp only [SirenParams.apply]
  rw [LinearParams.apply_dims]
  simp [mkLinear, h.1, h.2]

/-- Each basis strategy preserves batch and point dimensions and outputs
its configured trailing width. -/
theorem queryBasisFn_apply_dims (qb : QueryBasisFn) (t : Tensor3) :
    (qb.apply t).dims =
      (t.batch, t.pts,
        match qb with
        | .siren p => p.dim_out
        | .fourier _ proj => proj.outF
        | .linear L => L.outF) := by
  cases qb with
  | siren p => exact siren_apply_dims p t
  | fourier ft proj =>
      simp [QueryBasisFn.apply, LinearParams.apply, FourierParams.apply, Tensor3.dims]
  | linear L => simp [QueryBasisFn.apply, LinearParams.apply, Tensor3.dims]

/-- Reshaping a (b, n, last)-shaped tensor with `view(b, -1, last)`
recovers the same dimensions when b and last are positive. -/
theorem view3_dims (t : Tensor3) (b last : Nat) (hb : t.batch = b) (hch : t.ch = last)
    (h : 0 < b * last) :
    (t.view3 b last).dims = (b, t.pts, last) := by
  subst hb hch
  have hm : t.batch * t.pts * t.ch / (t.batch * t.ch) = t.pts := by
    have h2 : t.batch * t.pts * t.ch = t.pts * (t.batch * t.ch) := by ring
    rw [h2, Nat.mul_div_cancel _ h]
  simp [Tensor3.view3, Tensor3.dims, hm]

instance : Inhabited TransformerEncoderBlock :=
  ⟨⟨0, 0, 0, 0, 0, false, 0, 0, id, "",
    default, default, default, default, none⟩⟩

/-- All-zero weights for a linear layer (used in concrete witnesses). -/
def zeroLinW : LinW := ⟨fun _ _ => 0, fun _ => 0⟩

/-- All-zero attention weights. -/
def zeroAttnW : AttnW := ⟨zeroLinW, zeroLinW, zeroLinW, zeroLinW⟩

/-- All-zero encoder weights with identity activation stand-ins. -/
def zeroEncW : EncoderWeights := ⟨zeroLinW, zeroLinW, zeroAttnW, zeroLinW, zeroLinW, id⟩

/-- All-zero decoder weights with identity activation stand-ins. -/
def zeroDecW : DecoderWeights :=
  ⟨zeroLinW, zeroLinW, zeroLinW, zeroAttnW, fun _ => zeroLinW, zeroLinW, id,
   fun _ _ => 0, id, id, zeroLinW, zeroLinW⟩

/-- A concrete (2, 3, 4) channel-last tensor. -/
def wT : Tensor3 := ⟨2, 3, 4, fun _ _ _ => 1⟩

/-- C4: a decoder forward call with no query point set computes exactly
the same function as the call on the same inputs with the source point
set passed explicitly as the query point set. -/
theorem c4_decoder_default_query (blk : TransformerDecoderBlock) (u pos_src : Tensor3)
    (pem : Option PosEmbModule) :
    blk.forward u pos_src pem none = blk.forward u pos_src pem (some pos_src) := rfl

/-- C9: each block's forward invocation is a deterministic pure function
of its inputs and parameters: invoking a block twice on identical inputs
(threading the post-invocation state of the first call into the second)
yields identical outputs, and every invocation leaves the block's
parameters and state unchanged. -/
theorem c9_forward_pure :
    (∀ (blk : TransformerEncoderBlock) (u pos : Tensor3) (pem : Option PosEmbModule),
      (blk.forwardS u pos pem).1 = ((blk.forwardS u pos pem).2.forwardS u pos pem).1 ∧
      ((blk.forwardS u pos pem).2.forwardS u pos pem).2 = blk) ∧
    (∀ (blk : TransformerDecoderBlock) (u pos_src : Tensor3)
       (pem : Option PosEmbModule) (pq : Option Tensor3),
      (blk.forwardS u pos_src pem pq).1 =
        ((blk.forwardS u pos_src pem pq).2.forwardS u pos_src pem pq).1 ∧
      ((blk.forwardS u pos_src pem pq).2.forwardS u pos_src pem pq).2 = blk) :=
  ⟨fun _ _ _ _ => ⟨rfl, rfl⟩, fun _ _ _ _ _ => ⟨rfl, rfl⟩⟩

/-- C8: for each of the four normalization kinds, `normalize` on a
channel-last (batch, points, channels) tensor returns a tensor of the
identical shape, inserting and removing the channel-first transposition
internally exactly for the kinds that require it, so callers always pass
and receive channel-last tensors. -/
theorem c8_normalize_shape (norm : String) (channels : Nat) (nf : NormFn) (t : Tensor3)
    (h : get_normalization norm channels = Except.ok nf) :
    (normalize t nf).dims = t.dims ∧
    (nf.isChannelFirst = true →
      normalize t nf = (nf.apply t.permute021).permute021) ∧
    (nf.isChannelFirst = false → normalize t nf = nf.apply t) := by
  refine ⟨normalize_dims t nf, fun hcf => ?_, fun hcf => ?_⟩ <;> simp [normalize, hcf]

/-- Witness for C8 at the group-norm kind on a concrete (2,3,4) tensor. -/
theorem c8_normalize_shape_witness :
    (normalize wT (NormFn.groupNorm 1 4)).dims = wT.dims ∧
    ((NormFn.groupNorm 1 4).isChannelFirst = true →
      normalize wT (NormFn.groupNorm 1 4) =
        ((NormFn.groupNorm 1 4).apply wT.permute021).permute021) ∧
    ((NormFn.groupNorm 1 4).isChannelFirst = false →
      normalize wT (NormFn.groupNorm 1 4) = (NormFn.groupNorm 1 4).apply wT) :=
  c8_normalize_shape "group_norm" 4 (NormFn.groupNorm 1 4) wT rfl

@[simp] theorem Tensor3.add_batch (u v : Tensor3) : (u.add v).batch = u.batch := rfl

@[simp] theorem Tensor3.add_pts (u v : Tensor3) : (u.add v).pts = u.pts := rfl

@[simp] theorem Tensor3.add_ch (u v : Tensor3) : (u.add v).ch = u.ch := rfl

@[simp] theorem Tensor3.map_batch (f : ℚ → ℚ) (t : Tensor3) : (t.map f).batch = t.batch := rfl

@[simp] theorem Tensor3.map_pts (f : ℚ → ℚ) (t : Tensor3) : (t.map f).pts = t.pts := rfl

@[simp] theorem Tensor3.map_ch (f : ℚ → ℚ) (t : Tensor3) : (t.map f).ch = t.ch := rfl

@[simp] theorem Tensor3.expand0_batch (t : Tensor3) (B : Nat) : (t.expand0 B).batch = B := rfl

@[simp] theorem Tensor3.expand0_pts (t : Tensor3) (B : Nat) : (t.expand0 B).pts = t.pts := rfl

@[simp] theorem Tensor3.expand0_ch (t : Tensor3) (B : Nat) : (t.expand0 B).ch = t.ch := rfl

@[simp] theorem LinearParams.apply_batch (L : LinearParams) (t : Tensor3) :
    (L.apply t).batch = t.batch := rfl

@[simp] theorem LinearParams.apply_pts (L : LinearParams) (t : Tensor3) :
    (L.apply t).pts = t.pts := rfl

@[simp] theorem LinearParams.apply_ch (L : LinearParams) (t : Tensor3) :
    (L.apply t).ch = L.outF := rfl

@[simp] theorem normalize_batch (t : Tensor3) (nf : NormFn) :
    (normalize t nf).batch = t.batch := congrArg Prod.fst (normalize_dims t nf)

@[simp] theorem normalize_pts (t : Tensor3) (nf : NormFn) :
    (normalize t nf).pts = t.pts :=
  congrArg (fun p => p.2.1) (normalize_dims t nf)

@[simp] theorem normalize_ch (t : Tensor3) (nf : NormFn) :
    (normalize t nf).ch = t.ch :=
  congrArg (fun p => p.2.2) (normalize_dims t nf)

@[simp] theorem applyChain_batch (σ : ℚ → ℚ) (l : List LinearParams) (t : Tensor3) :
    (applyChain σ l t).batch = t.batch := (applyChain_batch_pts σ l t).1

@[simp] theorem applyChain_pts (σ : ℚ → ℚ) (l : List LinearParams) (t : Tensor3) :
    (applyChain σ l t).pts = t.pts := (applyChain_batch_pts σ l t).2

@[simp] theorem attention_forward_batch (A : AttentionParams) (u_src pos_src : Tensor3)
    (u_qry pos_qry : Option Tensor3) (pem : Option PosEmbModule) :
    (A.forward u_src pos_src u_qry pos_qry pem).batch = u_src.batch :=
  congrArg Prod.fst (attention_forward_dims A u_src pos_src u_qry pos_qry pem)

@[simp] theorem attention_forward_pts (A : AttentionParams) (u_src pos_src : Tensor3)
    (u_qry pos_qry : Option Tensor3) (pem : Option PosEmbModule) :
    (A.forward u_src pos_src u_qry pos_qry pem).pts = (u_qry.getD u_src).pts :=
  congrArg (fun p => p.2.1) (attention_forward_dims A u_src pos_src u_qry pos_qry pem)

@[simp] theorem attention_forward_ch (A : AttentionParams) (u_src pos_src : Tensor3)
    (u_qry pos_qry : Option Tensor3) (pem : Option PosEmbModule) :
    (A.forward u_src pos_src u_qry pos_qry pem).ch = A.wout.outF :=
  congrArg (fun p => p.2.2) (attention_forward_dims A u_src pos_src u_qry pos_qry pem)

@[simp] theorem ProjLayer.apply_identity (t : Tensor3) :
    ProjLayer.identity.apply t = t := rfl

@[simp] theorem ProjLayer.apply_linear (L : LinearParams) (t : Tensor3) :
    (ProjLayer.linear L).apply t = L.apply t := rfl

@[simp] theorem ProjLayer.proj_apply_batch (p : ProjLayer) (t : Tensor3) :
    (p.apply t).batch = t.batch := by
  cases p <;> rfl

@[simp] theorem ProjLayer.proj_apply_pts (p : ProjLayer) (t : Tensor3) :
    (p.apply t).pts = t.pts := by
  cases p <;> rfl

/-- Inversion of a successful encoder construction: the normalization
kind resolved, and the block is exactly the record the constructor
builds (identity projections exactly when widths agree, the feed-forward
pair present exactly when `use_mlp` is set). -/
theorem encoderInit_ok_inv
    (in_channels out_channels hidden_channels num_heads head_n_channels : Nat)
    (use_mlp : Bool) (mlp_dropout mlp_expansion : ℚ) (σ : ℚ → ℚ) (norm : String)
    (w : EncoderWeights) (eb : TransformerEncoderBlock)
    (he : encoderInit in_channels out_channels hidden_channels num_heads head_n_channels
      use_mlp mlp_dropout mlp_expansion σ norm w = Except.ok eb) :
    ∃ an, get_normalization norm hidden_channels = Except.ok an ∧
      eb = ⟨in_channels, out_channels, hidden_channels, num_heads, head_n_channels,
            use_mlp, mlp_dropout, mlp_expansion, σ, norm,
            (if in_channels ≠ hidden_channels then
               ProjLayer.linear (mkLinear in_channels hidden_channels w.lifting)
             else ProjLayer.identity),
            (if hidden_channels ≠ out_channels then
               ProjLayer.linear (mkLinear hidden_channels out_channels w.to_out)
             else ProjLayer.identity),
            an,
            mkAttention hidden_channels hidden_channels num_heads head_n_channels true w.attn,
            (if use_mlp then
               some (an,
                 ⟨[mkLinear hidden_channels (pyInt ((hidden_channels : ℚ) * mlp_expansion)) w.mlp1,
                   mkLinear (pyInt ((hidden_channels : ℚ) * mlp_expansion)) hidden_channels w.mlp2],
                  w.mlp_act, mlp_dropout⟩)
             else none)⟩ := by
  unfold encoderInit at he
  cases hg : get_normalization norm hidden_channels with
  | error e => rw [hg] at he; simp at he
  | ok an =>
    rw [hg] at he
    refine ⟨an, rfl, ?_⟩
    cases use_mlp with
    | false => simpa using he.symm
    | true => simpa using he.symm

/-- Inversion of a successful decoder construction: the normalization
kind and basis strategy resolved, and the block is exactly the record
the constructor builds (the out-norm and attention-norm coincide since
both come from the same selector call; the output projection is always
the two-layer MLP). -/
theorem decoderInit_ok_inv
    (n_dim in_channels out_channels hidden_channels num_heads head_n_channels : Nat)
    (query_basis : String) (use_mlp : Bool) (mlp_dropout mlp_expansion : ℚ)
    (σ : ℚ → ℚ) (qsl : Nat) (qfs : ℚ) (norm : String) (w : DecoderWeights)
    (db : TransformerDecoderBlock)
    (hd : decoderInit n_dim in_channels out_channels hidden_channels num_heads head_n_channels
      query_basis use_mlp mlp_dropout mlp_expansion σ qsl qfs norm w = Except.ok db) :
    ∃ onrm qb,
      get_normalization norm hidden_channels = Except.ok onrm ∧
      queryBasisInit n_dim hidden_channels num_heads head_n_channels
        query_basis qsl qfs w = Except.ok qb ∧
      db = ⟨n_dim, in_channels, out_channels, hidden_channels, num_heads, head_n_channels,
            use_mlp, mlp_dropout, mlp_expansion, σ, norm, query_basis, qsl, qfs,
            (if in_channels ≠ hidden_channels then
               ProjLayer.linear (mkLinear in_channels hidden_channels w.lifting)
             else ProjLayer.identity),
            onrm,
            ⟨[mkLinear hidden_channels hidden_channels w.to_out1,
              mkLinear hidden_channels out_channels w.to_out2], σ, 0⟩,
            qb, onrm,
            mkAttention hidden_channels hidden_channels num_heads head_n_channels false w.attn⟩ := by
  unfold decoderInit at hd
  cases hg : get_normalization norm hidden_channels with
  | error e => rw [hg] at hd; simp at hd
  | ok onrm =>
    rw [hg] at hd
    cases hq : queryBasisInit n_dim hidden_channels num_heads head_n_channels
        query_basis qsl qfs w with
    | error e => rw [hq] at hd; simp at hd
    | ok qb =>
      rw [hq] at hd
      exact ⟨onrm, qb, rfl, rfl, by simpa using hd.symm⟩

/-- A successfully constructed basis generator maps any point set to an
embedding of trailing width `num_heads * head_n_channels`. -/
theorem queryBasisInit_ok_dims (n_dim hidden_channels num_heads head_n_channels : Nat)
    (query_basis : String) (qsl : Nat) (qfs : ℚ) (w : DecoderWeights)
    (qb : QueryBasisFn)
    (hq : queryBasisInit n_dim hidden_channels num_heads head_n_channels
      query_basis qsl qfs w = Except.ok qb) (t : Tensor3) :
    (qb.apply t).dims = (t.batch, t.pts, num_heads * head_n_channels) := by
  unfold queryBasisInit at hq
  split_ifs at hq <;> simp only [Except.ok.injEq] at hq <;> try subst hq
  · exact siren_apply_dims _ t
  · simp [QueryBasisFn.apply, FourierParams.apply, mkLinear, Tensor3.dims,
      LinearParams.apply]
  · simp [QueryBasisFn.apply, mkLinear, Tensor3.dims, LinearParams.apply]

/-- A concrete encoder built with all three widths equal to 16. -/
def c1enc : TransformerEncoderBlock :=
  match encoderInit 16 16 16 4 4 true 0 2 id "layer_norm" zeroEncW with
  | .ok b => b
  | .error _ => default

/-- A concrete decoder built with hidden_channels = out_channels = 16. -/
def c1dec : TransformerDecoderBlock :=
  match decoderInit 2 16 16 16 4 4 "siren" true 0 2 id 3 2 "layer_norm" zeroDecW with
  | .ok b => b
  | .error _ => default

/-- A concrete (1, 1, 16) all-ones tensor. -/
def oneT16 : Tensor3 := ⟨1, 1, 16, fun _ _ _ => 1⟩

/-- C1 counterexample: in a decoder constructed with hidden_channels =
out_channels (both 16), the to_out projection is not the identity
transform — it is the always-present two-layer output MLP, which here
(all-zero weights) sends the all-ones tensor to zero. -/
theorem c1_counterexample :
    decoderInit 2 16 16 16 4 4 "siren" true 0 2 id 3 2 "layer_norm" zeroDecW =
      Except.ok c1dec ∧
    c1dec.hidden_channels = c1dec.out_channels ∧
    (c1dec.to_out.apply oneT16).data 0 0 0 ≠ oneT16.data 0 0 0 := by
  refine ⟨rfl, rfl, ?_⟩
  have hz : (c1dec.to_out.apply oneT16).data 0 0 0 = 0 := by
    simp [c1dec, decoderInit, queryBasisInit, get_normalization, zeroDecW, zeroLinW,
      zeroAttnW, MLPLinearParams.apply, applyChain, mkLinear, LinearParams.apply,
      Tensor3.map, mkAttention]
  rw [hz]
  simp [oneT16]

/-- C1 (amended): for both blocks the lifting projection is the identity
transform whenever in_channels equals hidden_channels, and for the
encoder the to_out projection is the identity transform whenever
hidden_channels equals out_channels; the decoder's to_out is always the
two-layer output MLP, never an identity placeholder. -/
theorem c1_projection_identity
    (in_channels out_channels hidden_channels num_heads head_n_channels : Nat)
    (use_mlp : Bool) (mlp_dropout mlp_expansion : ℚ) (σ : ℚ → ℚ) (norm : String)
    (we : EncoderWeights) (n_dim : Nat) (query_basis : String)
    (qsl : Nat) (qfs : ℚ) (wd : DecoderWeights)
    (eb : TransformerEncoderBlock) (db : TransformerDecoderBlock)
    (he : encoderInit in_channels out_channels hidden_channels num_heads head_n_channels
      use_mlp mlp_dropout mlp_expansion σ norm we = Except.ok eb)
    (hd : decoderInit n_dim in_channels out_channels hidden_channels num_heads head_n_channels
      query_basis use_mlp mlp_dropout mlp_expansion σ qsl qfs norm wd = Except.ok db) :
    (in_channels = hidden_channels → eb.lifting = ProjLayer.identity) ∧
    (hidden_channels = out_channels → eb.to_out = ProjLayer.identity) ∧
    (in_channels = hidden_channels → db.lifting = ProjLayer.identity) ∧
    db.to_out.layers.length = 2 := by
  obtain ⟨an, hg, rfl⟩ := encoderInit_ok_inv _ _ _ _ _ _ _ _ _ _ _ _ he
  obtain ⟨onrm, qb, hg2, hq, rfl⟩ := decoderInit_ok_inv _ _ _ _ _ _ _ _ _ _ _ _ _ _ _ _ hd
  refine ⟨fun h => ?_, fun h => ?_, fun h => ?_, rfl⟩ <;> simp [h]

/-- Witness for C1 (amended) at the concrete equal-width blocks. -/
theorem c1_projection_identity_witness :
    (16 = 16 → c1enc.lifting = ProjLayer.identity) ∧
    (16 = 16 → c1enc.to_out = ProjLayer.identity) ∧
    (16 = 16 → c1dec.lifting = ProjLayer.identity) ∧
    c1dec.to_out.layers.length = 2 :=
  c1_projection_identity 16 16 16 4 4 true 0 2 id "layer_norm" zeroEncW
    2 "siren" 3 2 zeroDecW c1enc c1dec rfl rfl

/-- C3: for every encoder forward call on an input value tensor of shape
(batch, points, in_channels), the output has shape
(batch, points, out_channels), for every combination of in_channels
equal or unequal to hidden_channels and hidden_channels equal or unequal
to out_channels, and with use_mlp either true or false. -/
theorem c3_encoder_output_shape
    (in_channels out_channels hidden_channels num_heads head_n_channels : Nat)
    (use_mlp : Bool) (mlp_dropout mlp_expansion : ℚ) (σ : ℚ → ℚ) (norm : String)
    (w : EncoderWeights) (eb : TransformerEncoderBlock)
    (he : encoderInit in_channels out_channels hidden_channels num_heads head_n_channels
      use_mlp mlp_dropout mlp_expansion σ norm w = Except.ok eb)
    (u pos : Tensor3) (hu : u.ch = in_channels) (pem : Option PosEmbModule) :
    (eb.forward u pos pem).dims = (u.batch, u.pts, out_channels) := by
  obtain ⟨an, hg, rfl⟩ := encoderInit_ok_inv _ _ _ _ _ _ _ _ _ _ _ _ he
  cases use_mlp <;> by_cases h1 : in_channels = hidden_channels <;>
    by_cases h2 : hidden_channels = out_channels <;>
    simp [TransformerEncoderBlock.forward, Tensor3.dims,
      MLPLinearParams.apply, applyChain, mkAttention, mkLinear, Prod.ext_iff,
      ne_eq, h1, h2, hu]

/-- A concrete encoder at the spec scenario widths (8 → 16 → 8). -/
def encBlkW : TransformerEncoderBlock :=
  match encoderInit 8 8 16 4 4 true 0 2 id "layer_norm" zeroEncW with
  | .ok b => b
  | .error _ => default

/-- A concrete (2, 10, 8) value tensor. -/
def uEncW : Tensor3 := ⟨2, 10, 8, fun _ _ _ => 1⟩

/-- A concrete (2, 10, 2) source point set. -/
def posW : Tensor3 := ⟨2, 10, 2, fun _ _ _ => 0⟩

/-- Witness for C3 at the spec scenario: (2,10,8) input → (2,10,8) output. -/
theorem c3_encoder_output_shape_witness :
    (encBlkW.forward uEncW posW none).dims = (2, 10, 8) :=
  c3_encoder_output_shape 8 8 16 4 4 true 0 2 id "layer_norm" zeroEncW encBlkW rfl
    uEncW posW rfl none

theorem dims_batch {t : Tensor3} {x : Nat × Nat × Nat} (h : t.dims = x) : t.batch = x.1 := by
  rw [← h]; rfl

theorem dims_pts {t : Tensor3} {x : Nat × Nat × Nat} (h : t.dims = x) : t.pts = x.2.1 := by
  rw [← h]; rfl

theorem dims_ch {t : Tensor3} {x : Nat × Nat × Nat} (h : t.dims = x) : t.ch = x.2.2 := by
  rw [← h]; rfl

@[simp] theorem Tensor3.view3_batch (t : Tensor3) (b last : Nat) :
    (t.view3 b last).batch = b := rfl

@[simp] theorem Tensor3.view3_ch (t : Tensor3) (b last : Nat) :
    (t.view3 b last).ch = last := rfl

/-- C2: for every decoder forward call with value tensor of batch size B,
any source point set, and an explicit query point set, the output has
shape (B, num_query_points, out_channels): the output point count equals
the query point set's cardinality and does not depend on the source
point set's cardinality. -/
theorem c2_decoder_output_shape
    (n_dim in_channels out_channels hidden_channels num_heads head_n_channels : Nat)
    (query_basis : String) (use_mlp : Bool) (mlp_dropout mlp_expansion : ℚ)
    (σ : ℚ → ℚ) (qsl : Nat) (qfs : ℚ) (norm : String) (w : DecoderWeights)
    (db : TransformerDecoderBlock)
    (hd : decoderInit n_dim in_channels out_channels hidden_channels num_heads head_n_channels
      query_basis use_mlp mlp_dropout mlp_expansion σ qsl qfs norm w = Except.ok db)
    (u pos_src pq : Tensor3) (pem : Option PosEmbModule)
    (hqb : 0 < pq.batch) (hh : 0 < num_heads * head_n_channels) :
    (db.forward u pos_src pem (some pq)).dims = (u.batch, pq.pts, out_channels) := by
  obtain ⟨onrm, qb, hg, hq, rfl⟩ := decoderInit_ok_inv _ _ _ _ _ _ _ _ _ _ _ _ _ _ _ _ hd
  have hqd := queryBasisInit_ok_dims _ _ _ _ _ _ _ _ _ hq pq
  have hVpts : ((qb.apply pq).view3 pq.batch (num_heads * head_n_channels)).pts = pq.pts := by
    have hv := view3_dims (qb.apply pq) pq.batch (num_heads * head_n_channels)
      (dims_batch hqd) (dims_ch hqd) (Nat.mul_pos hqb hh)
    exact (dims_pts hv).trans (dims_pts hqd)
  by_cases hb2 : pq.batch = u.batch
  · rw [hb2] at hVpts
    simp [TransformerDecoderBlock.forward, decoderQueryEmb, Tensor3.dims, Prod.ext_iff,
      MLPLinearParams.apply, applyChain, mkAttention, mkLinear, hVpts, hb2]
  · simp [TransformerDecoderBlock.forward, decoderQueryEmb, Tensor3.dims, Prod.ext_iff,
      MLPLinearParams.apply, applyChain, mkAttention, mkLinear, hVpts, hb2]

/-- A concrete decoder at the spec scenario widths (8 → 16 → 8). -/
def decBlkW : TransformerDecoderBlock :=
  match decoderInit 2 8 8 16 4 4 "siren" true 0 2 id 3 2 "layer_norm" zeroDecW with
  | .ok b => b
  | .error _ => default

/-- A concrete (1, 5, 2) query point set. -/
def posQW : Tensor3 := ⟨1, 5, 2, fun _ _ _ => 0⟩

/-- Witness for C2 at the spec scenario: 10 source points, 5 query
points, output shape (2, 5, 8). -/
theorem c2_decoder_output_shape_witness :
    (decBlkW.forward uEncW posW none (some posQW)).dims = (2, 5, 8) :=
  c2_decoder_output_shape 2 8 8 16 4 4 "siren" true 0 2 id 3 2 "layer_norm" zeroDecW
    decBlkW rfl uEncW posW posQW none (by decide) (by decide)

/-- C5: for a decoder forward call whose query point set has batch size
1 while the value tensor has batch size B > 1, the query embedding is
broadcast (expanded) to batch size B and the output has batch size B. -/
theorem c5_decoder_broadcast (blk : TransformerDecoderBlock) (u pos_src pq : Tensor3)
    (pem : Option PosEmbModule) (h1 : pq.batch = 1) (hB : 1 < u.batch) :
    decoderQueryEmb blk (blk.lifting.apply u) pq =
      ((blk.query_basis_fn.apply pq).view3 pq.batch
        (blk.num_heads * blk.head_n_channels)).expand0 u.batch ∧
    (decoderQueryEmb blk (blk.lifting.apply u) pq).batch = u.batch ∧
    (blk.forward u pos_src pem (some pq)).batch = u.batch := by
  have hne : pq.batch ≠ u.batch := by omega
  refine ⟨?_, ?_, ?_⟩
  · simp [decoderQueryEmb, hne]
  · simp [decoderQueryEmb, hne]
  · simp [TransformerDecoderBlock.forward, MLPLinearParams.apply]

/-- Witness for C5: query batch 1, value batch 2 → embedding and output
batch 2. -/
theorem c5_decoder_broadcast_witness :
    decoderQueryEmb decBlkW (decBlkW.lifting.apply uEncW) posQW =
      ((decBlkW.query_basis_fn.apply posQW).view3 posQW.batch
        (decBlkW.num_heads * decBlkW.head_n_channels)).expand0 uEncW.batch ∧
    (decoderQueryEmb decBlkW (decBlkW.lifting.apply uEncW) posQW).batch = uEncW.batch ∧
    (decBlkW.forward uEncW posW none (some posQW)).batch = uEncW.batch :=
  c5_decoder_broadcast decBlkW uEncW posW posQW none rfl (by decide)

/-- C6: for each of the three basis strategies, the basis generator
applied to a query point set yields an embedding whose trailing
dimension is exactly num_heads × head_n_channels, before and after the
reshape. -/
theorem c6_basis_trailing_dim
    (n_dim in_channels out_channels hidden_channels num_heads head_n_channels : Nat)
    (query_basis : String) (use_mlp : Bool) (mlp_dropout mlp_expansion : ℚ)
    (σ : ℚ → ℚ) (qsl : Nat) (qfs : ℚ) (norm : String) (w : DecoderWeights)
    (db : TransformerDecoderBlock)
    (hmem : query_basis ∈ ["siren", "fourier", "linear"])
    (hd : decoderInit n_dim in_channels out_channels hidden_channels num_heads head_n_channels
      query_basis use_mlp mlp_dropout mlp_expansion σ qsl qfs norm w = Except.ok db)
    (pq : Tensor3) :
    (db.query_basis_fn.apply pq).ch = num_heads * head_n_channels ∧
    ((db.query_basis_fn.apply pq).view3 pq.batch (num_heads * head_n_channels)).ch =
      num_heads * head_n_channels := by
  obtain ⟨onrm, qb, hg, hq, rfl⟩ := decoderInit_ok_inv _ _ _ _ _ _ _ _ _ _ _ _ _ _ _ _ hd
  exact ⟨dims_ch (queryBasisInit_ok_dims _ _ _ _ _ _ _ _ _ hq pq), rfl⟩

/-- Witness for C6 at the siren strategy on the concrete decoder. -/
theorem c6_basis_trailing_dim_witness :
    (decBlkW.query_basis_fn.apply posQW).ch = 4 * 4 ∧
    ((decBlkW.query_basis_fn.apply posQW).view3 posQW.batch (4 * 4)).ch = 4 * 4 :=
  c6_basis_trailing_dim 2 8 8 16 4 4 "siren" true 0 2 id 3 2 "layer_norm" zeroDecW
    decBlkW (by simp) rfl posQW

/-- Construction succeeds iff the normalization kind is one of the four
enumerated ones. -/
theorem get_normalization_ok_iff (norm : String) (channels : Nat) :
    (∃ nf, get_normalization norm channels = Except.ok nf) ↔
      norm ∈ ["none", "instance_norm", "group_norm", "layer_norm"] := by
  unfold get_normalization
  split_ifs <;> simp_all

/-- Basis construction succeeds iff the strategy is one of the three
enumerated ones. -/
theorem queryBasisInit_ok_iff (n_dim hidden_channels num_heads head_n_channels : Nat)
    (query_basis : String) (qsl : Nat) (qfs : ℚ) (w : DecoderWeights) :
    (∃ qb, queryBasisInit n_dim hidden_channels num_heads head_n_channels
      query_basis qsl qfs w = Except.ok qb) ↔
      query_basis ∈ ["siren", "fourier", "linear"] := by
  unfold queryBasisInit
  split_ifs <;> simp_all

/-- C7: constructing a block with a normalization kind outside the four
enumerated ones, or a decoder with a basis strategy outside the three
enumerated ones, fails at construction time (before any forward call);
for every kind inside those sets, construction succeeds. -/
theorem c7_construction_errors
    (n_dim in_channels out_channels hidden_channels num_heads head_n_channels : Nat)
    (query_basis : String) (use_mlp : Bool) (mlp_dropout mlp_expansion : ℚ)
    (σ : ℚ → ℚ) (qsl : Nat) (qfs : ℚ) (norm : String)
    (we : EncoderWeights) (wd : DecoderWeights) :
    ((∃ eb, encoderInit in_channels out_channels hidden_channels num_heads head_n_channels
        use_mlp mlp_dropout mlp_expansion σ norm we = Except.ok eb) ↔
      norm ∈ ["none", "instance_norm", "group_norm", "layer_norm"]) ∧
    ((∃ db, decoderInit n_dim in_channels out_channels hidden_channels num_heads head_n_channels
        query_basis use_mlp mlp_dropout mlp_expansion σ qsl qfs norm wd = Except.ok db) ↔
      (norm ∈ ["none", "instance_norm", "group_norm", "layer_norm"] ∧
       query_basis ∈ ["siren", "fourier", "linear"])) := by
  constructor
  · constructor
    · rintro ⟨eb, he⟩
      obtain ⟨an, hg, -⟩ := encoderInit_ok_inv _ _ _ _ _ _ _ _ _ _ _ _ he
      exact (get_normalization_ok_iff norm hidden_channels).1 ⟨an, hg⟩
    · intro hmem
      obtain ⟨nf, hg⟩ := (get_normalization_ok_iff norm hidden_channels).2 hmem
      unfold encoderInit
      rw [hg]
      cases use_mlp <;> exact ⟨_, rfl⟩
  · constructor
    · rintro ⟨db, hd⟩
      obtain ⟨onrm, qb, hg, hq, -⟩ := decoderInit_ok_inv _ _ _ _ _ _ _ _ _ _ _ _ _ _ _ _ hd
      exact ⟨(get_normalization_ok_iff norm hidden_channels).1 ⟨onrm, hg⟩,
             (queryBasisInit_ok_iff _ _ _ _ _ _ _ _).1 ⟨qb, hq⟩⟩
    · rintro ⟨hn, hb⟩
      obtain ⟨nf, hg⟩ := (get_normalization_ok_iff norm hidden_channels).2 hn
      obtain ⟨qb, hq⟩ := (queryBasisInit_ok_iff n_dim hidden_channels num_heads
        head_n_channels query_basis qsl qfs wd).2 hb
      unfold decoderInit
      rw [hg, hq]
      exact ⟨_, rfl⟩

/-- C10: the decoder's forward output is independent of the use_mlp,
mlp_dropout, and mlp_expansion construction arguments: two decoders
built identically except for those three settings compute the same
forward function on every input. -/
theorem c10_decoder_mlp_args_unused
    (n_dim in_channels out_channels hidden_channels num_heads head_n_channels : Nat)
    (query_basis : String) (um1 um2 : Bool) (md1 md2 me1 me2 : ℚ)
    (σ : ℚ → ℚ) (qsl : Nat) (qfs : ℚ) (norm : String) (w : DecoderWeights)
    (db1 db2 : TransformerDecoderBlock)
    (h1 : decoderInit n_dim in_channels out_channels hidden_channels num_heads head_n_channels
      query_basis um1 md1 me1 σ qsl qfs norm w = Except.ok db1)
    (h2 : decoderInit n_dim in_channels out_channels hidden_channels num_heads head_n_channels
      query_basis um2 md2 me2 σ qsl qfs norm w = Except.ok db2)
    (u pos_src : Tensor3) (pem : Option PosEmbModule) (pq : Option Tensor3) :
    db1.forward u pos_src pem pq = db2.forward u pos_src pem pq := by
  obtain ⟨on1, qb1, hg1, hq1, rfl⟩ := decoderInit_ok_inv _ _ _ _ _ _ _ _ _ _ _ _ _ _ _ _ h1
  obtain ⟨on2, qb2, hg2, hq2, rfl⟩ := decoderInit_ok_inv _ _ _ _ _ _ _ _ _ _ _ _ _ _ _ _ h2
  rw [hg1] at hg2
  rw [hq1] at hq2
  obtain rfl : on1 = on2 := Except.ok.inj hg2
  obtain rfl : qb1 = qb2 := Except.ok.inj hq2
  rfl

/-- A second concrete decoder differing from `decBlkW` only in the
use_mlp / mlp_dropout / mlp_expansion settings. -/
def decBlkW2 : TransformerDecoderBlock :=
  match decoderInit 2 8 8 16 4 4 "siren" false 1 3 id 3 2 "layer_norm" zeroDecW with
  | .ok b => b
  | .error _ => default

/-- Witness for C10 on the two concrete decoders. -/
theorem c10_decoder_mlp_args_unused_witness :
    decBlkW.forward uEncW posW none (some posQW) =
      decBlkW2.forward uEncW posW none (some posQW) :=
  c10_decoder_mlp_args_unused 2 8 8 16 4 4 "siren" true false 0 1 2 3 id 3 2 "layer_norm"
    zeroDecW decBlkW decBlkW2 rfl rfl uEncW posW none (some posQW)

end NeuralOp
